import Mathlib

/-!
Verification of the resource introspection and bounded synthetic-load
subsystem of `examples/05-volumes-memory/app.py`.

The Python handlers are shallowly embedded as pure Lean functions over
explicit environment records.  Each environment record packages the
readings the handler obtains from the OS (psutil counters, file reads,
directory walks, write outcomes); the embedded function reproduces the
handler's control flow over those readings.  Python exceptions are
modelled with `Except`; Python `float` percentages are modelled with `ℚ`
(exact rationals); `datetime.now()` timestamp fields, which no property
concerns, are not modelled.
-/

/-- Python runtime errors that the disk handler can raise and that are not
caught by its `except PermissionError` clause. -/
inductive PyErr where
  | zeroDivision
  deriving Repr, DecidableEq

/-- Python's `/` operator on numbers: raises `ZeroDivisionError` when the
divisor is zero, otherwise exact division (floats are modelled as ℚ). -/
def pyDiv (a b : ℚ) : Except PyErr ℚ :=
  if b = 0 then .error .zeroDivision else .ok (a / b)

/-- Result of `psutil.disk_usage(...)` / `shutil.disk_usage(...)`:
total, used and free byte counts. -/
structure DiskUsage where
  total : Nat
  used : Nat
  free : Nat
  deriving Repr, DecidableEq

/-- One element yielded by `psutil.disk_partitions()`, together with the
outcome of the subsequent `psutil.disk_usage(partition.mountpoint)` call:
`none` models the call raising `PermissionError`, `some u` a successful
stat. -/
structure PartitionEntry where
  device : String
  mountpoint : String
  fstype : String
  usage : Option DiskUsage
  deriving Repr, DecidableEq

/-- One dict appended to the `partitions` list by `get_disk_info`. -/
structure PartitionInfo where
  device : String
  mountpoint : String
  fstype : String
  total : Nat
  used : Nat
  free : Nat
  percent : ℚ
  deriving Repr, DecidableEq

/-- The `root_disk` part of the `/disk` response. -/
structure RootDisk where
  total : Nat
  used : Nat
  free : Nat
  percent : ℚ
  deriving Repr, DecidableEq

/-- The `/disk` response body. -/
structure DiskSnapshot where
  root_disk : RootDisk
  partitions : List PartitionInfo
  deriving Repr, DecidableEq

/-- Environment of one `/disk` request: the root-filesystem usage returned
by `shutil.disk_usage('/')` and the partition enumeration with each
partition's stat outcome. -/
structure DiskEnv where
  rootUsage : DiskUsage
  partitions : List PartitionEntry
  deriving Repr, DecidableEq

/-- The `for partition in psutil.disk_partitions():` loop of
`get_disk_info` (app.py lines 54-68): a `PermissionError` from
`disk_usage` skips the partition (`continue`); any other exception — in
particular the `ZeroDivisionError` from `(used / total) * 100` when
`total = 0` — propagates and aborts the whole handler. -/
def collectPartitions : List PartitionEntry → Except PyErr (List PartitionInfo)
  | [] => .ok []
  | p :: rest =>
    match p.usage with
    | none => collectPartitions rest
    | some u =>
      match pyDiv (u.used : ℚ) (u.total : ℚ) with
      | .error e => .error e
      | .ok q =>
        match collectPartitions rest with
        | .error e => .error e
        | .ok tail =>
          .ok ({ device := p.device, mountpoint := p.mountpoint,
                 fstype := p.fstype, total := u.total, used := u.used,
                 free := u.free, percent := q * 100 } :: tail)

/-- The `/disk` handler `get_disk_info` (app.py lines 48-78): runs the
partition loop, then builds the response with
`percent = (used / total) * 100` for the root filesystem. -/
def get_disk_info (env : DiskEnv) : Except PyErr DiskSnapshot :=
  match collectPartitions env.partitions with
  | .error e => .error e
  | .ok parts =>
    match pyDiv (env.rootUsage.used : ℚ) (env.rootUsage.total : ℚ) with
    | .error e => .error e
    | .ok q =>
      .ok { root_disk := { total := env.rootUsage.total,
                           used := env.rootUsage.used,
                           free := env.rootUsage.free,
                           percent := q * 100 },
            partitions := parts }

/-- Sanity of one enumerated partition's stat reading: a successful
`disk_usage` never reports more used bytes than total bytes. -/
def usageSane (p : PartitionEntry) : Bool :=
  match p.usage with
  | none => true
  | some u => u.used ≤ u.total

lemma collectPartitions_mem {ps : List PartitionEntry} {l : List PartitionInfo}
    (h : collectPartitions ps = .ok l) :
    ∀ info ∈ l, ∃ p ∈ ps, ∃ u, p.usage = some u ∧ u.total ≠ 0 ∧
      info.total = u.total ∧ info.used = u.used ∧
      info.percent = (u.used : ℚ) / (u.total : ℚ) * 100 := by
  induction ps generalizing l with
  | nil =>
    simp only [collectPartitions, Except.ok.injEq] at h
    subst h
    simp
  | cons p rest ih =>
    cases hu : p.usage with
    | none =>
      simp only [collectPartitions, hu] at h
      intro info hinfo
      obtain ⟨q, hq, u, hu', rest'⟩ := ih h info hinfo
      exact ⟨q, List.mem_cons_of_mem _ hq, u, hu', rest'⟩
    | some u =>
      simp only [collectPartitions, hu] at h
      cases hdiv : pyDiv (u.used : ℚ) (u.total : ℚ) with
      | error e => simp only [hdiv] at h; exact absurd h (by simp)
      | ok q =>
        simp only [hdiv] at h
        cases hrest : collectPartitions rest with
        | error e => simp only [hrest] at h; exact absurd h (by simp)
        | ok tail =>
          simp only [hrest, Except.ok.injEq] at h
          subst h
          have htot : (u.total : ℚ) ≠ 0 := by
            intro hz
            rw [pyDiv, if_pos hz] at hdiv
            cases hdiv
          have htotN : u.total ≠ 0 := by
            intro hz; exact htot (by exact_mod_cast congrArg (Nat.cast (R := ℚ)) hz)
          have hq : q = (u.used : ℚ) / (u.total : ℚ) := by
            simp only [pyDiv, if_neg htot, Except.ok.injEq] at hdiv
            exact hdiv.symm
          intro info hinfo
          rcases List.mem_cons.mp hinfo with hhead | htail
          · subst hhead
            exact ⟨p, List.mem_cons_self _ _, u, hu, htotN, rfl, rfl, by rw [hq]⟩
          · obtain ⟨q', hq', u', hu', rest'⟩ := ih hrest info htail
            exact ⟨q', List.mem_cons_of_mem _ hq', u', hu', rest'⟩

/-- Model of Python `str.strip()`: drop leading and trailing whitespace
characters (the code only strips plain whitespace around the digits read
from the cgroup file). -/
def pyStrip (s : String) : String :=
  ⟨((s.data.dropWhile Char.isWhitespace).reverse.dropWhile
      Char.isWhitespace).reverse⟩

/-- Accumulate a decimal digit string; any non-digit character makes the
whole parse fail, mirroring `int(...)` raising `ValueError`. -/
def digitsVal (cs : List Char) : Option Nat :=
  cs.foldl
    (fun acc c =>
      acc.bind (fun n => if c.isDigit then some (10 * n + (c.toNat - '0'.toNat)) else none))
    (some 0)

/-- Model of Python `int(s)` on an already-stripped string: an optional
sign followed by a nonempty run of decimal digits; anything else raises
`ValueError`, modelled as `none`. -/
def pyInt (s : String) : Option Int :=
  match s.data with
  | [] => none
  | '-' :: rest =>
    if rest = [] then none else (digitsVal rest).map (fun n => -(n : Int))
  | '+' :: rest =>
    if rest = [] then none else (digitsVal rest).map (fun n => (n : Int))
  | cs => (digitsVal cs).map (fun n => (n : Int))

/-- `get_memory_limit` (app.py lines 211-217): reads
`/sys/fs/cgroup/memory/memory.limit_in_bytes` and parses
`int(f.read().strip())`; the bare `except` turns a missing or unreadable
file (`none`) and a parse failure alike into `None`.  The file argument is
the outcome of the read: `none` when `open`/`read` raises. -/
def get_memory_limit (file : Option String) : Option Int :=
  match file with
  | none => none
  | some s => pyInt (pyStrip s)

/-- `get_cgroup_memory` (app.py lines 219-225): identical logic over
`/sys/fs/cgroup/memory/memory.usage_in_bytes`. -/
def get_cgroup_memory (file : Option String) : Option Int :=
  match file with
  | none => none
  | some s => pyInt (pyStrip s)

/-- The `virtual_memory` part of the `/memory` response; the fields are
copied verbatim from `psutil.virtual_memory()` (with `getattr(..., 0)`
defaults for `cached`/`buffers` folded into the reading). -/
structure VirtualMemoryInfo where
  total : Nat
  available : Nat
  used : Nat
  free : Nat
  percent : ℚ
  cached : Nat
  buffers : Nat
  deriving Repr, DecidableEq

/-- The `swap_memory` part of the `/memory` response, copied from
`psutil.swap_memory()`. -/
structure SwapMemoryInfo where
  total : Nat
  used : Nat
  free : Nat
  percent : ℚ
  deriving Repr, DecidableEq

/-- The `container_info` part of the `/memory` response. -/
structure ContainerInfo where
  memory_limit : Option Int
  memory_usage : Option Int
  deriving Repr, DecidableEq

/-- The `/memory` response body. -/
structure MemorySnapshot where
  virtual_memory : VirtualMemoryInfo
  swap_memory : SwapMemoryInfo
  container_info : ContainerInfo
  deriving Repr, DecidableEq

/-- Environment of one `/memory` request: the psutil counters plus the
raw contents of the two cgroup accounting files (`none` = missing or
unreadable). -/
structure MemEnv where
  vm : VirtualMemoryInfo
  swap : SwapMemoryInfo
  limitFile : Option String
  usageFile : Option String
  deriving Repr, DecidableEq

/-- The `/memory` handler `get_memory_info` (app.py lines 20-46): a
pass-through of the psutil counters, with the cgroup fields resolved by
`get_memory_limit` and `get_cgroup_memory`. -/
def get_memory_info (env : MemEnv) : MemorySnapshot :=
  { virtual_memory := env.vm
    swap_memory := env.swap
    container_info :=
      { memory_limit := get_memory_limit env.limitFile
        memory_usage := get_cgroup_memory env.usageFile } }

deriving instance DecidableEq for Except

/-- One file seen during `os.walk`, with the outcome of
`os.path.getsize` on it: `.error ()` models `OSError`. -/
structure WalkFile where
  name : String
  size : Except Unit Nat
  deriving Repr, DecidableEq

/-- One `(dirpath, dirnames, filenames)` triple yielded by `os.walk`. -/
structure WalkDir where
  dirpath : String
  files : List WalkFile
  deriving Repr, DecidableEq

/-- Outcome of walking a directory tree: either the top-level walk raises
(caught by the outer bare `except`) or it yields a list of directories. -/
inductive WalkInput where
  | failure
  | dirs (ds : List WalkDir)
  deriving Repr, DecidableEq

/-- `get_directory_size` (app.py lines 227-240): sums `os.path.getsize`
over every file of the walk, skipping (via `except OSError: pass`) files
whose stat fails; a top-level walk failure returns 0 through the outer
bare `except`. -/
def get_directory_size : WalkInput → Nat
  | .failure => 0
  | .dirs ds =>
    ds.foldl
      (fun acc d =>
        d.files.foldl
          (fun a f => match f.size with | .ok n => a + n | .error _ => a)
          acc)
      0

/-- `count_files` (app.py lines 242-250): counts `len(files)` over the
walk (no per-file stat, so unreadable files are still counted); a
top-level walk failure returns 0. -/
def count_files : WalkInput → Nat
  | .failure => 0
  | .dirs ds => ds.foldl (fun acc d => acc + d.files.length) 0

/-- One dict appended to the `volumes` list by `get_volume_info`; the
three constructors mirror the three dict shapes the handler builds:
`absent` is `{path, exists: False}` (no other key), `errorRec` is
`{path, exists: True, error}` (no size/files key), and `full` is
`{path, exists: True, is_mount, size, files}`. -/
inductive VolumeRecord where
  | absent (path : String)
  | errorRec (path : String) (error : String)
  | full (path : String) (is_mount : Bool) (size : Nat) (files : Nat)
  deriving Repr, DecidableEq

/-- Environment of one candidate path in the `/volumes` handler:
`pexists` is the `os.path.exists(path)` answer; `statRes` the outcome of
`os.stat(path)` (`.error msg` = an exception with message `msg`);
`mountRes` the outcome of `os.path.ismount(path)`; and `tree` the walk
that `get_directory_size`/`count_files` traverse. -/
structure PathEnv where
  path : String
  pexists : Bool
  statRes : Except String Unit
  mountRes : Except String Bool
  tree : WalkInput
  deriving Repr, DecidableEq

/-- The per-path body of the `for path in volume_paths:` loop of
`get_volume_info` (app.py lines 94-115): non-existent paths get the bare
record; any exception inside the `try` (from `os.stat` or
`os.path.ismount` — `get_directory_size` and `count_files` swallow their
own errors) yields the error record instead of aborting the loop. -/
def inspectPath (p : PathEnv) : VolumeRecord :=
  if p.pexists then
    match p.statRes with
    | .error e => .errorRec p.path e
    | .ok _ =>
      match p.mountRes with
      | .error e => .errorRec p.path e
      | .ok m => .full p.path m (get_directory_size p.tree) (count_files p.tree)
  else .absent p.path

/-- The `/volumes` handler `get_volume_info` (app.py lines 80-124),
restricted to the `volumes` list it builds (the environment-variable
echo involves no logic): one record per candidate path, in order. -/
def get_volume_info (paths : List PathEnv) : List VolumeRecord :=
  paths.map inspectPath

/-- Outcome of the `POST /memory/allocate` handler.  `invalidRequest` is
the `HTTPException(400)` raised by the safety cap; `valueNegative` is the
uncaught `ValueError` that `bytearray(size_mb * 1024 * 1024)` raises on a
negative count (caught by neither `except MemoryError` nor anything
else); `insufficientMemory` is the `HTTPException(507)` raised on
`MemoryError`; `ok` is the success dict (its psutil read-back fields,
which no property concerns, are not modelled). -/
inductive AllocResult where
  | invalidRequest (detail : String)
  | valueNegative
  | insufficientMemory (detail : String)
  | ok (message : String)
  deriving Repr, DecidableEq

/-- Does the allocation outcome reject the request as invalid (HTTP 400)? -/
def allocIsInvalid : AllocResult → Bool
  | .invalidRequest _ => true
  | _ => false

/-- Environment of one `POST /memory/allocate` request: whether the
`bytearray` allocation of the requested (non-negative) size succeeds or
raises `MemoryError`. -/
structure AllocEnv where
  memAvailable : Bool
  deriving Repr, DecidableEq

/-- `allocate_memory` (app.py lines 126-147).  The returned pair is the
handler outcome together with the number of bytes the handler actually
allocated (and touched at every 1024-byte stride): 0 whenever the request
is rejected by the cap, fails with `ValueError` on a negative count, or
fails with `MemoryError`. -/
def allocate_memory (size_mb : Int) (env : AllocEnv) : AllocResult × Nat :=
  if size_mb > 1000 then (.invalidRequest "Size too large (max 1000MB)", 0)
  else if size_mb < 0 then (.valueNegative, 0)
  else if env.memAvailable then
    (.ok ("Allocated " ++ toString size_mb ++ "MB of memory"),
     size_mb.toNat * 1024 * 1024)
  else (.insufficientMemory "Insufficient memory", 0)

/-- State shared by the disk-fill and cleanup handlers: the content
length in bytes of `/app/data/test_file.bin`, `none` when the file is
absent. -/
structure FsState where
  testFile : Option Nat
  deriving Repr, DecidableEq

/-- Outcome of the `open`/`write` step of `POST /disk/fill` (including
the preceding `os.makedirs`): success, `OSError` with errno `ENOSPC`
(a genuinely full filesystem), or any other `OSError` — Python's
`except OSError` clause cannot tell the last two apart. -/
inductive WriteOutcome where
  | ok
  | noSpace (msg : String)
  | otherOSError (msg : String)
  deriving Repr, DecidableEq

/-- Environment of one `POST /disk/fill` request. -/
structure FillEnv where
  write : WriteOutcome
  deriving Repr, DecidableEq

/-- Outcome of the `POST /disk/fill` handler.  `invalidRequest` is the
`HTTPException(400)` from the safety cap; `diskFull` is the
`HTTPException(507, "Disk full: " + str(e))` raised for every `OSError`;
`ok` is the success dict (timestamp and the post-write directory-size
read-back are environment readouts no property concerns). -/
inductive FillResult where
  | invalidRequest (detail : String)
  | diskFull (detail : String)
  | ok (size_mb : Int) (file_path : String)
  deriving Repr, DecidableEq

/-- Does the fill outcome reject the request as invalid (HTTP 400)? -/
def fillIsInvalid : FillResult → Bool
  | .invalidRequest _ => true
  | _ => false

/-- Does the fill outcome report resource exhaustion (HTTP 507,
"Disk full")? -/
def fillIsDiskFull : FillResult → Bool
  | .diskFull _ => true
  | _ => false

/-- Length in bytes of `b'0' * (size_mb * 1024 * 1024)`: Python sequence
repetition with a non-positive count yields the empty byte string. -/
def pyBytesLen (size_mb : Int) : Nat := (size_mb * 1024 * 1024).toNat

/-- `fill_disk` (app.py lines 149-170): cap check first, then the write;
every `OSError` — disk-full or not — lands in the single
`except OSError` clause and becomes the same 507 "Disk full: ..."
response.  On a failed write the on-disk state is left as given (the
partial truncation `open(..., 'wb')` may have performed is not modelled;
no property concerns it). -/
def fill_disk (size_mb : Int) (env : FillEnv) (st : FsState) :
    FillResult × FsState :=
  if size_mb > 100 then (.invalidRequest "Size too large (max 100MB)", st)
  else
    match env.write with
    | .ok =>
      (.ok size_mb "/app/data/test_file.bin",
       { testFile := some (pyBytesLen size_mb) })
    | .noSpace m => (.diskFull ("Disk full: " ++ m), st)
    | .otherOSError m => (.diskFull ("Disk full: " ++ m), st)

/-- Outcome of the `os.remove(test_file)` call in the cleanup handler:
success, or an `OSError` (read-only volume mount, `EACCES`, ...) with
its message. -/
inductive RemoveOutcome where
  | ok
  | oserror (msg : String)
  deriving Repr, DecidableEq

/-- Environment of one `DELETE /disk/cleanup` request. -/
structure CleanupEnv where
  remove : RemoveOutcome
  deriving Repr, DecidableEq

/-- Outcome of the cleanup handler: one of the two success message dicts,
or the `HTTPException(500, str(e))` raised by its `except Exception`
clause. -/
inductive CleanupResult where
  | msg (message : String)
  | httpError500 (detail : String)
  deriving Repr, DecidableEq

/-- `cleanup_disk` (app.py lines 172-183): `os.path.exists` gate, then
`os.remove`.  When the removal raises, the `except Exception` clause
turns it into the 500 response and the file stays in place; the gate is
only reached when the file exists, so the absent branch consults no
removal outcome. -/
def cleanup_disk (env : CleanupEnv) (st : FsState) : CleanupResult × FsState :=
  match st.testFile with
  | some _ =>
    match env.remove with
    | .ok => (.msg "Test file removed", { testFile := none })
    | .oserror m => (.httpError500 m, st)
  | none => (.msg "No test file found", st)

/-- The CPU-burn loop of `/stress` (app.py lines 192-193):
`for i in range(1000000): _ = i * i` — every square is computed and
immediately discarded, so the loop contributes nothing but time. -/
def stressLoop : Nat → Unit
  | 0 => ()
  | n + 1 =>
    let _ := n * n
    stressLoop n

/-- The memory-stress structure of `/stress` (app.py lines 197-199):
`data` after `for i in range(10000): data.append([i] * 100)` — a list of
10000 rows of 100 copies of the row index, built and then discarded when
the handler returns. -/
def stressData : List (List Nat) :=
  (List.range 10000).map (fun i => List.replicate 100 i)

/-- Environment of one `/stress` request, in the order the handler reads
the clock and the psutil counters: `t0`/`t1` are the two `time.time()`
readings, `cpu0`/`cpu1` the two `psutil.cpu_percent()` readings, and
`mem0`/`mem1` the two `psutil.virtual_memory().percent` readings. -/
structure StressEnv where
  t0 : ℚ
  t1 : ℚ
  cpu0 : ℚ
  cpu1 : ℚ
  mem0 : ℚ
  mem1 : ℚ
  deriving Repr, DecidableEq

/-- The `/stress` response body (timestamp not modelled). -/
structure StressResult where
  message : String
  duration : ℚ
  cpu_usage : ℚ
  memory_usage : ℚ
  deriving Repr, DecidableEq

/-- The `/stress` handler `stress_test` (app.py lines 185-209): reads the
start clock, takes the first CPU reading into `cpu_start`, runs the burn
loop, takes the first memory reading into `memory_start`, builds `data`,
reads the end clock, and returns the response dict — which contains the
duration and the SECOND (after) CPU and memory readings only;
`cpu_start` and `memory_start` are local variables that appear in no
response field. -/
def stress_test (env : StressEnv) : StressResult :=
  let _cpu_start := env.cpu0
  let _ := stressLoop 1000000
  let _memory_start := env.mem0
  let _ := stressData
  { message := "Stress test completed"
    duration := env.t1 - env.t0
    cpu_usage := env.cpu1
    memory_usage := env.mem1 }

lemma get_disk_info_ok {env : DiskEnv} {snap : DiskSnapshot}
    (h : get_disk_info env = .ok snap) :
    collectPartitions env.partitions = .ok snap.partitions ∧
    (env.rootUsage.total : ℚ) ≠ 0 ∧
    snap.root_disk.used = env.rootUsage.used ∧
    snap.root_disk.total = env.rootUsage.total ∧
    snap.root_disk.percent =
      (env.rootUsage.used : ℚ) / (env.rootUsage.total : ℚ) * 100 := by
  unfold get_disk_info at h
  cases hc : collectPartitions env.partitions with
  | error e => simp only [hc] at h; exact absurd h (by simp)
  | ok parts =>
    simp only [hc] at h
    cases hr : pyDiv (env.rootUsage.used : ℚ) (env.rootUsage.total : ℚ) with
    | error e => simp only [hr] at h; exact absurd h (by simp)
    | ok q =>
      simp only [hr, Except.ok.injEq] at h
      have htot : (env.rootUsage.total : ℚ) ≠ 0 := by
        intro hz
        rw [pyDiv, if_pos hz] at hr
        cases hr
      have hq : q = (env.rootUsage.used : ℚ) / (env.rootUsage.total : ℚ) := by
        rw [pyDiv, if_neg htot] at hr
        cases hr
        rfl
      subst h
      exact ⟨rfl, htot, rfl, rfl, by rw [hq]⟩

lemma percent_bounds_of_le {u t : Nat} (hle : u ≤ t) (ht : t ≠ 0) :
    0 ≤ (u : ℚ) / (t : ℚ) * 100 ∧ (u : ℚ) / (t : ℚ) * 100 ≤ 100 := by
  have htQ : (0 : ℚ) < (t : ℚ) := by exact_mod_cast Nat.pos_of_ne_zero ht
  constructor
  · positivity
  · have h1 : (u : ℚ) / (t : ℚ) ≤ 1 := by
      rw [div_le_one htQ]
      exact_mod_cast hle
    calc (u : ℚ) / (t : ℚ) * 100 ≤ 1 * 100 :=
          mul_le_mul_of_nonneg_right h1 (by norm_num)
      _ = 100 := one_mul 100

/-- A `/disk` environment in which one partition can be statted but
reports `total = 0` (as pseudo-filesystems such as `/proc` do). -/
def diskEnvZeroTotal : DiskEnv :=
  { rootUsage := { total := 100, used := 50, free := 50 }
    partitions :=
      [{ device := "proc", mountpoint := "/proc", fstype := "proc",
         usage := some { total := 0, used := 0, free := 0 } }] }

/-- C1 counterexample: a partition whose stat succeeds with `total = 0`
is NOT excluded from the result sequence — the division
`(used / total) * 100` raises `ZeroDivisionError` and the whole `/disk`
handler fails, because only `PermissionError` is caught by the loop. -/
theorem C1_zero_total_divides :
    get_disk_info diskEnvZeroTotal = Except.error PyErr.zeroDivision := by
  decide

/-- C1 (amended): a partition is excluded only when its stat raises
`PermissionError`; a stat-able partition with `total = 0` instead aborts
the whole disk collection with a division error.  Consequently every
partition of a successful `/disk` snapshot has `total ≠ 0`, and its
percent equals `used / total * 100`. -/
theorem C1_partition_percent (env : DiskEnv) (snap : DiskSnapshot)
    (h : get_disk_info env = Except.ok snap) :
    ∀ info ∈ snap.partitions, info.total ≠ 0 ∧
      info.percent = (info.used : ℚ) / (info.total : ℚ) * 100 := by
  obtain ⟨hparts, -, -, -, -⟩ := get_disk_info_ok h
  intro info hinfo
  obtain ⟨p, hp, u, hu, htot, h1, h2, h3⟩ := collectPartitions_mem hparts info hinfo
  refine ⟨by rw [h1]; exact htot, ?_⟩
  rw [h3, h1, h2]

/-- A `/disk` environment with an all-nonzero-total enumeration. -/
def diskEnvPlain : DiskEnv :=
  { rootUsage := { total := 100, used := 40, free := 60 }
    partitions :=
      [{ device := "sda1", mountpoint := "/", fstype := "ext4",
         usage := some { total := 200, used := 50, free := 150 } }] }

/-- The snapshot `get_disk_info` produces on `diskEnvPlain`. -/
def diskSnapPlain : DiskSnapshot :=
  { root_disk := { total := 100, used := 40, free := 60, percent := 40 }
    partitions :=
      [{ device := "sda1", mountpoint := "/", fstype := "ext4",
         total := 200, used := 50, free := 150, percent := 25 }] }

lemma get_disk_info_diskEnvPlain :
    get_disk_info diskEnvPlain = Except.ok diskSnapPlain := by
  simp only [get_disk_info, collectPartitions, diskEnvPlain, diskSnapPlain, pyDiv]
  norm_num

theorem C1_partition_percent_witness :
    get_disk_info diskEnvPlain = Except.ok diskSnapPlain ∧
    ∀ info ∈ diskSnapPlain.partitions, info.total ≠ 0 ∧
      info.percent = (info.used : ℚ) / (info.total : ℚ) * 100 :=
  ⟨get_disk_info_diskEnvPlain,
   C1_partition_percent diskEnvPlain diskSnapPlain get_disk_info_diskEnvPlain⟩

/-- C9: every percent field of a `/memory` snapshot (virtual memory and
swap, which the handler copies verbatim from readings psutil guarantees
to lie in [0, 100]) and of a successfully produced `/disk` snapshot
(root disk and each included partition, computed as `used / total * 100`
from stat readings with `used ≤ total`) lies between 0 and 100. -/
theorem C9_percent_bounds (menv : MemEnv) (denv : DiskEnv)
    (h1 : 0 ≤ menv.vm.percent) (h2 : menv.vm.percent ≤ 100)
    (h3 : 0 ≤ menv.swap.percent) (h4 : menv.swap.percent ≤ 100)
    (hsane : ∀ p ∈ denv.partitions, usageSane p = true)
    (hroot : denv.rootUsage.used ≤ denv.rootUsage.total) :
    (0 ≤ (get_memory_info menv).virtual_memory.percent ∧
       (get_memory_info menv).virtual_memory.percent ≤ 100) ∧
    (0 ≤ (get_memory_info menv).swap_memory.percent ∧
       (get_memory_info menv).swap_memory.percent ≤ 100) ∧
    ∀ snap, get_disk_info denv = Except.ok snap →
      (0 ≤ snap.root_disk.percent ∧ snap.root_disk.percent ≤ 100) ∧
      ∀ info ∈ snap.partitions, 0 ≤ info.percent ∧ info.percent ≤ 100 := by
  refine ⟨⟨h1, h2⟩, ⟨h3, h4⟩, ?_⟩
  intro snap hsnap
  obtain ⟨hparts, htot, -, -, hpct⟩ := get_disk_info_ok hsnap
  have htotN : denv.rootUsage.total ≠ 0 := by
    intro hz
    exact htot (by rw [hz]; norm_num)
  constructor
  · rw [hpct]
    exact percent_bounds_of_le hroot htotN
  · intro info hinfo
    obtain ⟨p, hp, u, hu, hutot, h1', h2', h3'⟩ :=
      collectPartitions_mem hparts info hinfo
    have hule : u.used ≤ u.total := by
      have := hsane p hp
      simpa [usageSane, hu] using this
    rw [h3']
    exact percent_bounds_of_le hule hutot

/-- A `/memory` environment with psutil-shaped readings and both cgroup
files present and well-formed. -/
def memEnvPlain : MemEnv :=
  { vm := { total := 1000, available := 600, used := 400, free := 500,
            percent := 40, cached := 50, buffers := 25 }
    swap := { total := 200, used := 20, free := 180, percent := 10 }
    limitFile := some "536870912"
    usageFile := some "123456789" }

theorem C9_percent_bounds_witness :
    (0 ≤ (get_memory_info memEnvPlain).virtual_memory.percent ∧
       (get_memory_info memEnvPlain).virtual_memory.percent ≤ 100) ∧
    (0 ≤ (get_memory_info memEnvPlain).swap_memory.percent ∧
       (get_memory_info memEnvPlain).swap_memory.percent ≤ 100) ∧
    ∀ snap, get_disk_info diskEnvPlain = Except.ok snap →
      (0 ≤ snap.root_disk.percent ∧ snap.root_disk.percent ≤ 100) ∧
      ∀ info ∈ snap.partitions, 0 ≤ info.percent ∧ info.percent ≤ 100 :=
  C9_percent_bounds memEnvPlain diskEnvPlain
    (by norm_num [memEnvPlain]) (by norm_num [memEnvPlain])
    (by norm_num [memEnvPlain]) (by norm_num [memEnvPlain])
    (by decide) (by decide)

/-- C2: a `size_mb > 1000` allocation request and a `size_mb > 100` fill
request are both rejected with the HTTP 400 invalid-request response
before any resource is touched: the allocation outcome carries 0
allocated bytes and does not depend on memory availability, and the fill
outcome leaves the filesystem state unchanged and does not depend on the
write outcome. -/
theorem C2_safety_caps (sa sf : Int) (aenv : AllocEnv) (fenv : FillEnv)
    (st : FsState) (ha : sa > 1000) (hf : sf > 100) :
    allocate_memory sa aenv =
      (.invalidRequest "Size too large (max 1000MB)", 0) ∧
    fill_disk sf fenv st =
      (.invalidRequest "Size too large (max 100MB)", st) := by
  constructor
  · unfold allocate_memory
    rw [if_pos ha]
  · unfold fill_disk
    rw [if_pos hf]

theorem C2_safety_caps_witness :
    allocate_memory 2000 ⟨true⟩ =
      (.invalidRequest "Size too large (max 1000MB)", 0) ∧
    fill_disk 101 ⟨.ok⟩ ⟨none⟩ =
      (.invalidRequest "Size too large (max 100MB)", ⟨none⟩) :=
  C2_safety_caps 2000 101 ⟨true⟩ ⟨.ok⟩ ⟨none⟩ (by decide) (by decide)

/-- C10: the safety caps are upper bounds only.  Any `size_mb ≤ 1000` to
allocate (zero and negatives included) passes the cap — a negative value
then fails with the uncaught `ValueError` from `bytearray`, which is
neither the 400 invalid-request rejection nor the 507 out-of-memory
signal; any `size_mb ≤ 100` to fill passes the cap — a zero or negative
value writes an empty test file when the write succeeds. -/
theorem C10_caps_upper_bound_only (sa sf : Int) (aenv : AllocEnv)
    (fenv : FillEnv) (st : FsState) (ha : sa ≤ 1000) (hf : sf ≤ 100) :
    allocIsInvalid (allocate_memory sa aenv).1 = false ∧
    (sa < 0 → allocate_memory sa aenv = (.valueNegative, 0)) ∧
    fillIsInvalid (fill_disk sf fenv st).1 = false ∧
    (sf ≤ 0 → fenv.write = .ok →
      fill_disk sf fenv st =
        (.ok sf "/app/data/test_file.bin", { testFile := some 0 })) := by
  have hna : ¬ (sa > 1000) := not_lt.mpr ha
  have hnf : ¬ (sf > 100) := not_lt.mpr hf
  refine ⟨?_, ?_, ?_, ?_⟩
  · unfold allocate_memory
    rw [if_neg hna]
    by_cases hneg : sa < 0
    · rw [if_pos hneg]
      rfl
    · rw [if_neg hneg]
      by_cases hm : aenv.memAvailable
      · rw [if_pos hm]
        rfl
      · rw [if_neg hm]
        rfl
  · intro hneg
    unfold allocate_memory
    rw [if_neg hna, if_pos hneg]
  · unfold fill_disk
    rw [if_neg hnf]
    cases hw : fenv.write <;> rfl
  · intro hsf0 hw
    unfold fill_disk
    rw [if_neg hnf, hw]
    have hlen : pyBytesLen sf = 0 := by
      unfold pyBytesLen
      omega
    rw [hlen]

theorem C10_caps_upper_bound_only_witness :
    allocIsInvalid (allocate_memory (-5) ⟨true⟩).1 = false ∧
    ((-5 : Int) < 0 → allocate_memory (-5) ⟨true⟩ = (.valueNegative, 0)) ∧
    fillIsInvalid (fill_disk (-3) ⟨.ok⟩ ⟨none⟩).1 = false ∧
    ((-3 : Int) ≤ 0 → WriteOutcome.ok = .ok →
      fill_disk (-3) ⟨.ok⟩ ⟨none⟩ =
        (.ok (-3) "/app/data/test_file.bin", { testFile := some 0 })) :=
  C10_caps_upper_bound_only (-5) (-3) ⟨true⟩ ⟨.ok⟩ ⟨none⟩
    (by decide) (by decide)

/-- C8 counterexample: with the test file present but `os.remove`
raising (here a read-only volume mount, where it keeps raising on retry),
the FIRST of two consecutive cleanup calls fails with the 500 response —
and so does the second, since the failed removal leaves the file in
place.  "Calling cleanup-disk twice in a row never fails" does not hold
of the code unconditionally. -/
theorem C8_cleanup_can_fail :
    (cleanup_disk ⟨.oserror "Read-only file system"⟩ ⟨some 5⟩).1 =
      .httpError500 "Read-only file system" ∧
    (cleanup_disk ⟨.oserror "Read-only file system"⟩
        (cleanup_disk ⟨.oserror "Read-only file system"⟩ ⟨some 5⟩).2).1 =
      .httpError500 "Read-only file system" := by
  decide

/-- C8 (amended): `cleanup_disk` is total and never fails on the
absent-file state: with the file absent it reports "not found" whatever
the removal outcome, since `os.remove` is gated behind
`os.path.exists`.  With the file present and the removal succeeding, the
first call removes it and reports removal, and the immediately following
call reports "not found" without failing; with the removal raising, the
call surfaces the 500 response with the OS message and leaves the file
in place. -/
theorem C8_cleanup_absent_total (env1 env2 : CleanupEnv) (st : FsState) :
    (st.testFile = none →
      cleanup_disk env1 st = (.msg "No test file found", st)) ∧
    (∀ n, st.testFile = some n → env1.remove = .ok →
      cleanup_disk env1 st = (.msg "Test file removed", { testFile := none }) ∧
      cleanup_disk env2 (cleanup_disk env1 st).2 =
        (.msg "No test file found", { testFile := none })) ∧
    (∀ n m, st.testFile = some n → env1.remove = .oserror m →
      cleanup_disk env1 st = (.httpError500 m, st)) := by
  obtain ⟨tf⟩ := st
  cases tf with
  | none =>
    refine ⟨fun _ => rfl, ?_, ?_⟩
    · intro n h
      cases h
    · intro n m h
      cases h
  | some k =>
    refine ⟨?_, ?_, ?_⟩
    · intro h
      cases h
    · intro n h hok
      exact ⟨by simp [cleanup_disk, hok], by simp [cleanup_disk, hok]⟩
    · intro n m h herr
      simp [cleanup_disk, herr]

theorem C8_cleanup_absent_total_witness :
    cleanup_disk ⟨.ok⟩ (⟨some 5⟩ : FsState) =
      (.msg "Test file removed", { testFile := none }) ∧
    cleanup_disk ⟨.ok⟩ (cleanup_disk ⟨.ok⟩ (⟨some 5⟩ : FsState)).2 =
      (.msg "No test file found", { testFile := none }) :=
  (C8_cleanup_absent_total ⟨.ok⟩ ⟨.ok⟩ ⟨some 5⟩).2.1 5 rfl rfl

/-- A `/stress` environment with low before readings. -/
def stressEnvA : StressEnv :=
  { t0 := 0, t1 := 2, cpu0 := 5, cpu1 := 7, mem0 := 10, mem1 := 20 }

/-- The same `/stress` environment except for much higher BEFORE CPU and
memory readings. -/
def stressEnvB : StressEnv :=
  { t0 := 0, t1 := 2, cpu0 := 99, cpu1 := 7, mem0 := 88, mem1 := 20 }

/-- C3 counterexample: the `/stress` response does not report the before
CPU and memory percentages — two runs whose before readings differ
(5 vs 99 CPU, 10 vs 88 memory) produce identical responses, because
`cpu_start` and `memory_start` are read into local variables that appear
in no response field. -/
theorem C3_before_readings_dropped :
    stress_test stressEnvA = stress_test stressEnvB ∧
    stressEnvA.cpu0 ≠ stressEnvB.cpu0 ∧
    stressEnvA.mem0 ≠ stressEnvB.mem0 :=
  ⟨rfl, by norm_num [stressEnvA, stressEnvB], by norm_num [stressEnvA, stressEnvB]⟩

/-- C3 (amended): the stress test runs the fixed 1000000-iteration
CPU-bound loop immediately followed by construction of the fixed-size
data structure (10000 rows of 100 entries), and its response reports the
wall-clock duration together with the AFTER CPU percentage and the AFTER
memory percentage only; the before readings are taken but not included
in the result. -/
theorem C3_stress_reports (env : StressEnv) :
    stress_test env =
      { message := "Stress test completed", duration := env.t1 - env.t0,
        cpu_usage := env.cpu1, memory_usage := env.mem1 } ∧
    stressData.length = 10000 ∧
    ∀ row ∈ stressData, row.length = 100 := by
  refine ⟨rfl, by simp [stressData], ?_⟩
  intro row hrow
  simp only [stressData, List.mem_map] at hrow
  obtain ⟨i, -, hi⟩ := hrow
  rw [← hi]
  simp

theorem C3_stress_reports_witness :
    stress_test { t0 := 1, t1 := 4, cpu0 := 3, cpu1 := 9,
                  mem0 := 6, mem1 := 30 } =
      { message := "Stress test completed", duration := 4 - 1,
        cpu_usage := 9, memory_usage := 30 } ∧
    stressData.length = 10000 :=
  ⟨(C3_stress_reports { t0 := 1, t1 := 4, cpu0 := 3, cpu1 := 9,
                        mem0 := 6, mem1 := 30 }).1,
   (C3_stress_reports { t0 := 1, t1 := 4, cpu0 := 3, cpu1 := 9,
                        mem0 := 6, mem1 := 30 }).2.1⟩

/-- C4 counterexample: a write failure that is NOT a disk-full condition
(here `OSError` "Permission denied") is surfaced by `fill_disk` as the
very same 507 "Disk full: ..." response as a genuine out-of-space
failure — the single `except OSError` clause makes the two failure kinds
structurally indistinguishable in the response. -/
theorem C4_other_oserror_labelled_disk_full :
    (fill_disk 10 ⟨.otherOSError "Permission denied"⟩ ⟨none⟩).1 =
      .diskFull "Disk full: Permission denied" ∧
    (fill_disk 10 ⟨.noSpace "No space left on device"⟩ ⟨none⟩).1 =
      .diskFull "Disk full: No space left on device" ∧
    fillIsDiskFull (fill_disk 10 ⟨.otherOSError "Permission denied"⟩ ⟨none⟩).1 =
      fillIsDiskFull (fill_disk 10 ⟨.noSpace "No space left on device"⟩ ⟨none⟩).1 := by
  refine ⟨by decide, by decide, by decide⟩

/-- C4 (amended): for every fill request within the safety cap, every
`OSError` raised by the write — disk-exhaustion and any other
filesystem/OS error alike — is surfaced as the single 507 response whose
detail is `"Disk full: "` followed by the OS message; the two failure
kinds differ only in that embedded message text, not in the response's
status or shape. -/
theorem C4_oserror_uniform_507 (size_mb : Int) (env : FillEnv) (st : FsState)
    (m : String) (hcap : size_mb ≤ 100)
    (hw : env.write = .noSpace m ∨ env.write = .otherOSError m) :
    fill_disk size_mb env st = (.diskFull ("Disk full: " ++ m), st) := by
  have hn : ¬ (size_mb > 100) := not_lt.mpr hcap
  unfold fill_disk
  rw [if_neg hn]
  rcases hw with hw | hw <;> rw [hw]

theorem C4_oserror_uniform_507_witness :
    fill_disk 10 ⟨.otherOSError "Read-only file system"⟩ ⟨some 7⟩ =
      (.diskFull ("Disk full: " ++ "Read-only file system"), ⟨some 7⟩) :=
  C4_oserror_uniform_507 10 ⟨.otherOSError "Read-only file system"⟩ ⟨some 7⟩
    "Read-only file system" (by decide) (Or.inr rfl)

lemma sizeFoldl (files : List WalkFile) (acc : Nat) :
    files.foldl (fun a f => match f.size with | .ok n => a + n | .error _ => a) acc
      = acc + (files.filterMap (fun f => f.size.toOption)).sum := by
  induction files generalizing acc with
  | nil => simp
  | cons f fs ih =>
    cases hf : f.size with
    | ok n =>
      simp only [List.foldl_cons, hf, List.filterMap_cons, Except.toOption,
        List.sum_cons, ih]
      omega
    | error e =>
      simp only [List.foldl_cons, hf, List.filterMap_cons, Except.toOption,
        List.sum_cons, ih]

lemma dirsSizeFoldl (ds : List WalkDir) (acc : Nat) :
    ds.foldl
      (fun acc d =>
        d.files.foldl
          (fun a f => match f.size with | .ok n => a + n | .error _ => a)
          acc)
      acc
      = acc +
        (ds.map (fun d => (d.files.filterMap (fun f => f.size.toOption)).sum)).sum := by
  induction ds generalizing acc with
  | nil => simp
  | cons d rest ih =>
    rw [List.foldl_cons, ih, sizeFoldl]
    simp only [List.map_cons, List.sum_cons]
    omega

lemma countFoldl (ds : List WalkDir) (acc : Nat) :
    ds.foldl (fun acc d => acc + d.files.length) acc
      = acc + (ds.map (fun d => d.files.length)).sum := by
  induction ds generalizing acc with
  | nil => simp
  | cons d rest ih =>
    simp only [List.foldl_cons, List.map_cons, List.sum_cons, ih]
    omega

/-- C5: the recursive size and file-count computations are total: on a
walk that yields directories, the size is the sum of exactly the files
whose `getsize` succeeded (a per-file stat error only skips that file),
the count is the number of listed files, and a top-level walk failure
yields 0 for both rather than an exception. -/
theorem C5_walk_partial_failure (ds : List WalkDir) :
    get_directory_size (.dirs ds) =
      (ds.map (fun d => (d.files.filterMap (fun f => f.size.toOption)).sum)).sum ∧
    count_files (.dirs ds) = (ds.map (fun d => d.files.length)).sum ∧
    get_directory_size .failure = 0 ∧
    count_files .failure = 0 := by
  refine ⟨?_, ?_, rfl, rfl⟩
  · have h := dirsSizeFoldl ds 0
    simpa [get_directory_size] using h
  · have h := countFoldl ds 0
    simpa [count_files] using h

/-- C6: the cgroup limit resolution is total and never surfaces an
error: a missing or unreadable accounting file (`none`) resolves the
field to `none`, malformed content (content `int()` cannot parse)
resolves it to `none` through the bare `except`, and present well-formed
content resolves it to the parsed integer value — for both the
memory-limit and the memory-usage source. -/
theorem C6_cgroup_fields (f : Option String) :
    (f = none → get_memory_limit f = none ∧ get_cgroup_memory f = none) ∧
    (∀ s, f = some s → pyInt (pyStrip s) = none →
      get_memory_limit f = none ∧ get_cgroup_memory f = none) ∧
    (∀ s n, f = some s → pyInt (pyStrip s) = some n →
      get_memory_limit f = some n ∧ get_cgroup_memory f = some n) := by
  refine ⟨?_, ?_, ?_⟩
  · rintro rfl
    exact ⟨rfl, rfl⟩
  · rintro s rfl hp
    exact ⟨hp, hp⟩
  · rintro s n rfl hp
    exact ⟨hp, hp⟩

theorem C6_cgroup_fields_witness :
    get_memory_limit (some " 536870912\n") = some 536870912 ∧
    get_cgroup_memory (some "max") = none :=
  ⟨((C6_cgroup_fields (some " 536870912\n")).2.2 " 536870912\n" 536870912
      rfl (by decide)).1,
   ((C6_cgroup_fields (some "max")).2.1 "max" rfl (by decide)).2⟩

/-- C7: per candidate path, a non-existent path yields the bare
`{path, exists: False}` record (no other field); an existing path whose
inspection raises — at `os.stat` or at `os.path.ismount` — yields the
`{path, exists: True, error}` record carrying the exception message and
no size or file-count field; and the enumeration always emits exactly
one record per candidate path, so later paths are still processed. -/
theorem C7_volume_records (ps : List PathEnv) (p : PathEnv) (e : String) :
    get_volume_info ps = ps.map inspectPath ∧
    (get_volume_info ps).length = ps.length ∧
    (p.pexists = false → inspectPath p = .absent p.path) ∧
    (p.pexists = true → p.statRes = .error e →
      inspectPath p = .errorRec p.path e) ∧
    (p.pexists = true → p.statRes = .ok () → p.mountRes = .error e →
      inspectPath p = .errorRec p.path e) := by
  refine ⟨rfl, by simp [get_volume_info], ?_, ?_, ?_⟩
  · intro hex
    simp [inspectPath, hex]
  · intro hex hst
    simp [inspectPath, hex, hst]
  · intro hex hst hm
    simp [inspectPath, hex, hst, hm]

/-- A candidate path that does not exist. -/
def pathEnvAbsent : PathEnv :=
  { path := "/app/backups", pexists := false, statRes := .ok (),
    mountRes := .ok false, tree := .dirs [] }

/-- A candidate path whose `os.stat` raises. -/
def pathEnvErr : PathEnv :=
  { path := "/var/log", pexists := true,
    statRes := .error "Stale file handle", mountRes := .ok false,
    tree := .dirs [] }

theorem C7_volume_records_witness :
    inspectPath pathEnvAbsent = .absent "/app/backups" ∧
    inspectPath pathEnvErr = .errorRec "/var/log" "Stale file handle" :=
  ⟨(C7_volume_records [pathEnvAbsent] pathEnvAbsent "x").2.2.1 rfl,
   (C7_volume_records [pathEnvErr] pathEnvErr "Stale file handle").2.2.2.1
     rfl rfl⟩
